import Mathlib

/-!
Shallow embedding of the admin advertisement-submissions management view
(`AdminAdvertisementSubmissionsManagement`) and the lead-capture banner form
(`AdvertisementBanners`) of the ashishproperties.in front end.

React `useState` cells become fields of an explicit state record; each event
handler becomes a function from the state (plus the resolved network outcome,
since the handlers `await` a single fetch) to the new state together with the
observable effects it emits: toast notifications, console logs, HTTP requests
issued, and which refetches it triggers.
-/

namespace AshishProperties

/-- One advertiser lead, as the `AdvertisementSubmission` interface declares it.
The workflow status is kept as the raw string the component stores and sends. -/
structure AdvertisementSubmission where
  _id : String
  bannerType : String
  fullName : String
  email : String
  phone : String
  projectName : String
  location : String
  projectType : String
  budget : Option String
  description : String
  status : String
  createdAt : String
  updatedAt : String
deriving DecidableEq

/-- Aggregate counters from the `Statistics` interface. -/
structure Statistics where
  total : Nat
  new : Nat
  viewed : Nat
  contacted : Nat
  byBannerType : List (String × Nat)
deriving DecidableEq

/-- One `toast(...)` call: title, description, and whether the
`variant: "destructive"` flag was passed. -/
structure Toast where
  title : String
  description : String
  destructive : Bool
deriving DecidableEq

/-- The component's `useState` cells. -/
structure ControllerState where
  submissions : List AdvertisementSubmission
  statistics : Option Statistics
  loading : Bool
  showDetailsDialog : Bool
  selectedSubmission : Option AdvertisementSubmission
  deleting : Bool
  updating : Bool
  search : String
  filterStatus : String
  filterBannerType : String
  currentPage : Nat
  totalPages : Nat
  total : Nat
deriving DecidableEq

/-- The `useState` initial values. -/
def initialState : ControllerState :=
  { submissions := []
    statistics := none
    loading := true
    showDetailsDialog := false
    selectedSubmission := none
    deleting := false
    updating := false
    search := ""
    filterStatus := ""
    filterBannerType := ""
    currentPage := 1
    totalPages := 1
    total := 0 }

/-- JavaScript truthiness of a string: only the empty string is falsy. -/
def strTruthy (s : String) : Bool := !(s == "")

/-- JavaScript `maybeMessage || fallback` where `maybeMessage` is a possibly
absent string field (`data.error`): an absent or empty message falls back. -/
def jsOrString (o : Option String) (fallback : String) : String :=
  match o with
  | some m => if strTruthy m then m else fallback
  | none => fallback

/-- The search `Input` `onChange`: `setSearch(e.target.value); setCurrentPage(1)`. -/
def onSearchChange (s : ControllerState) (value : String) : ControllerState :=
  { s with search := value, currentPage := 1 }

/-- The status filter `Select` `onValueChange={setFilterStatus}`. -/
def onStatusFilterChange (s : ControllerState) (value : String) : ControllerState :=
  { s with filterStatus := value }

/-- The banner-type filter `Select` `onValueChange={setFilterBannerType}`. -/
def onBannerTypeFilterChange (s : ControllerState) (value : String) : ControllerState :=
  { s with filterBannerType := value }

/-- The previous-page button: `setCurrentPage(Math.max(1, currentPage - 1))`. -/
def onPrevPageClick (s : ControllerState) : ControllerState :=
  { s with currentPage := max 1 (s.currentPage - 1) }

/-- The next-page button: `setCurrentPage(Math.min(totalPages, currentPage + 1))`. -/
def onNextPageClick (s : ControllerState) : ControllerState :=
  { s with currentPage := min s.totalPages (s.currentPage + 1) }

/-- The previous-page button's `disabled={currentPage === 1}`. -/
def prevButtonDisabled (s : ControllerState) : Bool := s.currentPage == 1

/-- The next-page button's `disabled={currentPage === totalPages}`. -/
def nextButtonDisabled (s : ControllerState) : Bool := s.currentPage == s.totalPages

/-- Whether the pagination block (both page buttons included) is rendered: the
card body shows the spinner while `loading`, the empty placeholder when
`submissions.length === 0`, and otherwise the table followed by the pagination
under the guard `{totalPages > 1 && ...}`. -/
def paginationVisible (s : ControllerState) : Bool :=
  !s.loading && !s.submissions.isEmpty && decide (1 < s.totalPages)

/-- The `URLSearchParams` assembled by `fetchSubmissions`: `page` and
`limit: "10"` always, then `search`, `status`, `bannerType` appended exactly
when the corresponding state string is truthy. -/
def fetchSubmissionsParams (s : ControllerState) : List (String × String) :=
  [("page", toString s.currentPage), ("limit", "10")]
    ++ (if strTruthy s.search then [("search", s.search)] else [])
    ++ (if strTruthy s.filterStatus then [("status", s.filterStatus)] else [])
    ++ (if strTruthy s.filterBannerType then [("bannerType", s.filterBannerType)] else [])

/-- Outcome of one awaited `fetch`: the parsed body had `success: true` with a
payload, or `success` false with an optional `error` message string, or the
call threw (network error / bad JSON). -/
inductive FetchResult (α : Type) where
  | success (payload : α)
  | apiError (message : Option String)
  | networkError
deriving DecidableEq

/-- `data.data` of a successful list response: `submissions`,
`pagination.total` and `pagination.pages`. -/
structure SubmissionsPayload where
  submissions : List AdvertisementSubmission
  total : Nat
  pages : Nat
deriving DecidableEq

/-- The lead-capture form's state object (`formData` in `AdvertisementBanners`);
every field is initialised to a string, `budget` included. -/
structure FormData where
  bannerType : String
  fullName : String
  email : String
  phone : String
  projectName : String
  location : String
  projectType : String
  budget : String
  description : String
deriving DecidableEq

/-- An HTTP request the components can issue. -/
inductive ApiRequest where
  | listSubmissions (params : List (String × String))
  | getStatistics
  | updateStatus (submissionId status : String)
  | deleteSubmission (submissionId : String)
  | createSubmission (form : FormData)
deriving DecidableEq

/-- Observable effects of one handler invocation. -/
structure Effects where
  toasts : List Toast
  logs : List String
  requests : List ApiRequest
  refetchSubmissions : Bool
  refetchStatistics : Bool
deriving DecidableEq

/-- No observable effect. -/
def noEffects : Effects :=
  { toasts := [], logs := [], requests := [], refetchSubmissions := false,
    refetchStatistics := false }

/-- `fetchSubmissions` run to completion on a resolved outcome: on success the
three data cells are replaced; on a non-success body one destructive toast with
the server message (or the generic text) is raised; on a thrown error the error
is logged and the generic destructive toast raised. `loading` ends false in
every branch (`finally`). -/
def fetchSubmissionsRun (s : ControllerState) (r : FetchResult SubmissionsPayload) :
    ControllerState × List Toast × List String :=
  match r with
  | .success d =>
    ({ s with loading := false, submissions := d.submissions, total := d.total,
              totalPages := d.pages }, [], [])
  | .apiError msg =>
    ({ s with loading := false },
     [{ title := "Error", description := jsOrString msg "Failed to fetch submissions",
        destructive := true }], [])
  | .networkError =>
    ({ s with loading := false },
     [{ title := "Error", description := "Failed to fetch submissions",
        destructive := true }],
     ["Error fetching submissions:"])

/-- `fetchStatistics` run to completion: only a successful body stores
statistics; a non-success body does nothing; a thrown error is only logged. -/
def fetchStatisticsRun (s : ControllerState) (r : FetchResult Statistics) :
    ControllerState × List Toast × List String :=
  match r with
  | .success d => ({ s with statistics := some d }, [], [])
  | .apiError _ => (s, [], [])
  | .networkError => (s, [], ["Error fetching statistics:"])

/-- The `useEffect` refresh: `fetchSubmissions()` then `fetchStatistics()`,
collecting both effect streams. -/
def refreshRun (s : ControllerState) (rSub : FetchResult SubmissionsPayload)
    (rStat : FetchResult Statistics) : ControllerState × List Toast × List String :=
  match fetchSubmissionsRun s rSub with
  | (s1, toasts1, logs1) =>
    match fetchStatisticsRun s1 rStat with
    | (s2, toasts2, logs2) => (s2, toasts1 ++ toasts2, logs1 ++ logs2)

/-- `handleStatusChange` entry: `setUpdating(true)`. -/
def handleStatusChangeBegin (s : ControllerState) : ControllerState :=
  { s with updating := true }

/-- `handleStatusChange` after its PUT resolves: a success body raises the
success toast and triggers `fetchSubmissions()` and `fetchStatistics()`; a
non-success body raises one destructive toast with the server message or the
generic text; a thrown error is logged and raises the generic destructive
toast. `finally` clears `updating`. The submissions list is never touched. -/
def handleStatusChangeComplete (s : ControllerState) (submissionId newStatus : String)
    (r : FetchResult Unit) : ControllerState × Effects :=
  match r with
  | .success _ =>
    ({ s with updating := false },
     { noEffects with
        toasts := [{ title := "Success", description := "Status updated successfully",
                     destructive := false }]
        requests := [.updateStatus submissionId newStatus]
        refetchSubmissions := true
        refetchStatistics := true })
  | .apiError msg =>
    ({ s with updating := false },
     { noEffects with
        toasts := [{ title := "Error", description := jsOrString msg "Failed to update status",
                     destructive := true }]
        requests := [.updateStatus submissionId newStatus] })
  | .networkError =>
    ({ s with updating := false },
     { noEffects with
        toasts := [{ title := "Error", description := "Failed to update status",
                     destructive := true }]
        logs := ["Error updating status:"]
        requests := [.updateStatus submissionId newStatus] })

/-- The whole `handleStatusChange` round trip. -/
def handleStatusChange (s : ControllerState) (submissionId newStatus : String)
    (r : FetchResult Unit) : ControllerState × Effects :=
  handleStatusChangeComplete (handleStatusChangeBegin s) submissionId newStatus r

/-- `handleDelete` once past the `confirm(...)` guard: `setDeleting(true)`. -/
def handleDeleteBegin (s : ControllerState) : ControllerState :=
  { s with deleting := true }

/-- `handleDelete` after its DELETE resolves, mirroring `handleStatusChange`:
success toast plus both refetches, or one destructive toast; `finally` clears
`deleting`; the submissions list itself is never touched here. -/
def handleDeleteComplete (s : ControllerState) (submissionId : String)
    (r : FetchResult Unit) : ControllerState × Effects :=
  match r with
  | .success _ =>
    ({ s with deleting := false },
     { noEffects with
        toasts := [{ title := "Success", description := "Submission deleted successfully",
                     destructive := false }]
        requests := [.deleteSubmission submissionId]
        refetchSubmissions := true
        refetchStatistics := true })
  | .apiError msg =>
    ({ s with deleting := false },
     { noEffects with
        toasts := [{ title := "Error", description := jsOrString msg "Failed to delete submission",
                     destructive := true }]
        requests := [.deleteSubmission submissionId] })
  | .networkError =>
    ({ s with deleting := false },
     { noEffects with
        toasts := [{ title := "Error", description := "Failed to delete submission",
                     destructive := true }]
        logs := ["Error deleting submission:"]
        requests := [.deleteSubmission submissionId] })

/-- The whole `handleDelete`: `if (!confirm(...)) return;` guards everything,
so a declined confirmation changes nothing and issues nothing. -/
def handleDelete (s : ControllerState) (submissionId : String) (confirmed : Bool)
    (r : FetchResult Unit) : ControllerState × Effects :=
  if !confirmed then (s, noEffects)
  else handleDeleteComplete (handleDeleteBegin s) submissionId r

/-- `handleViewDetails`: pure local selection, no request. -/
def handleViewDetails (s : ControllerState) (submission : AdvertisementSubmission) :
    ControllerState :=
  { s with selectedSubmission := some submission, showDetailsDialog := true }

/-- The per-row status `Select` renders with `disabled={updating}`: the one
global flag, whatever the row. -/
def statusSelectDisabled (s : ControllerState) (_row : AdvertisementSubmission) : Bool :=
  s.updating

/-- The per-row delete `Button` renders with `disabled={deleting}`. -/
def deleteButtonDisabled (s : ControllerState) (_row : AdvertisementSubmission) : Bool :=
  s.deleting

/-- The pagination caption's lower bound: `(currentPage - 1) * 10 + 1`. -/
def showingFrom (s : ControllerState) : Nat := (s.currentPage - 1) * 10 + 1

/-- The pagination caption's upper bound: `Math.min(currentPage * 10, total)`. -/
def showingTo (s : ControllerState) : Nat := min (s.currentPage * 10) s.total

/-- The spec's fixed page size. -/
def pageSize : Nat := 10

/-- The spec's display formula `offsetStart = (page-1)*pageSize+1`, written
from the spec's words for comparison with the code's `showingFrom`. -/
def offsetStartSpec (page : Nat) : Nat := (page - 1) * pageSize + 1

/-- The spec's display formula `offsetEnd = min(page*pageSize, total)`, written
from the spec's words for comparison with the code's `showingTo`. -/
def offsetEndSpec (page total : Nat) : Nat := min (page * pageSize) total

/-- The lead-capture form's required-field guard, exactly the disjunction
`handleSubmit` tests: the six starred fields, by JavaScript truthiness;
`projectType` and `budget` are not tested. -/
def missingRequiredField (f : FormData) : Bool :=
  !strTruthy f.fullName || !strTruthy f.email || !strTruthy f.phone ||
  !strTruthy f.projectName || !strTruthy f.location || !strTruthy f.description

/-- The banner form's local state: the dialog flag, the loading flag, and the
form data. -/
structure BannerFormState where
  showForm : Bool
  loading : Bool
  formData : FormData
deriving DecidableEq

/-- `handleSubmit` of `AdvertisementBanners`: when a required field is empty it
raises one destructive toast and returns before any request; otherwise it POSTs
the form and reacts to the resolved outcome (`finally` clears `loading`). -/
def handleSubmit (st : BannerFormState) (r : FetchResult Unit) :
    BannerFormState × Effects :=
  if missingRequiredField st.formData then
    (st, { noEffects with
            toasts := [{ title := "Error",
                         description := "Please fill in all required fields",
                         destructive := true }] })
  else
    match r with
    | .success _ =>
      ({ st with loading := false, showForm := false },
       { noEffects with
          toasts := [{ title := "Success",
                       description := "Your submission has been sent to our sales team",
                       destructive := false }]
          requests := [.createSubmission st.formData] })
    | .apiError msg =>
      ({ st with loading := false },
       { noEffects with
          toasts := [{ title := "Error", description := jsOrString msg "Failed to submit form",
                       destructive := true }]
          requests := [.createSubmission st.formData] })
    | .networkError =>
      ({ st with loading := false },
       { noEffects with
          toasts := [{ title := "Error",
                       description := "Failed to submit your request. Please try again.",
                       destructive := true }]
          logs := ["Error submitting form:"]
          requests := [.createSubmission st.formData] })

/-- A reachable state sitting on page 3 (for instance after paging forward
twice under a broad query). -/
def statePage3 : ControllerState :=
  { initialState with currentPage := 3, totalPages := 5, total := 42 }

/-- Claim C1, counterexample: from page 3, changing the status filter to
"contacted" or the banner-type filter to "commercial" leaves the current page
at 3, not 1 — only the search input's handler resets the page. -/
theorem C1_counterexample :
    (onStatusFilterChange statePage3 "contacted").currentPage = 3 ∧
    (onBannerTypeFilterChange statePage3 "commercial").currentPage = 3 ∧
    (3 : Nat) ≠ 1 :=
  ⟨rfl, rfl, by decide⟩

/-- Claim C1 (amended): a `setSearch` change resets the current page to 1, but
a status-filter or banner-type-filter change updates only its filter field and
leaves the current page unchanged. -/
theorem C1_filter_page_reset (s : ControllerState) (value : String) :
    (onSearchChange s value).currentPage = 1 ∧
    (onSearchChange s value).search = value ∧
    (onStatusFilterChange s value).currentPage = s.currentPage ∧
    (onStatusFilterChange s value).filterStatus = value ∧
    (onBannerTypeFilterChange s value).currentPage = s.currentPage ∧
    (onBannerTypeFilterChange s value).filterBannerType = value :=
  ⟨rfl, rfl, rfl, rfl, rfl, rfl⟩

/-- A displayed submission row. -/
def exampleSubmission : AdvertisementSubmission :=
  { _id := "sub-1"
    bannerType := "residential"
    fullName := "Asha Verma"
    email := "asha@example.com"
    phone := "9896000000"
    projectName := "Green Heights"
    location := "Rohtak"
    projectType := "residential"
    budget := none
    description := "Residential towers"
    status := "new"
    createdAt := "2024-01-01T00:00:00Z"
    updatedAt := "2024-01-01T00:00:00Z" }

/-- A reachable state whose current page exceeds the fetched page count:
page 5 of a broad query was current, then a filter change (which does not
reset the page) narrowed the result set to 3 pages, and the refetch resolved
with a non-empty page, `loading` back to false. -/
def stateStalePage : ControllerState :=
  { initialState with
      loading := false
      submissions := [exampleSubmission]
      currentPage := 5
      totalPages := 3
      total := 23 }

/-- Claim C2, counterexample: in a state where the pagination block is rendered
(not loading, a non-empty table, totalPages = 3 > 1) and currentPage = 5, the
previous-page button is enabled, and clicking it sets the page to 4, which is
outside [1, totalPages] = [1, 3]: the click clamps only at the floor. -/
theorem C2_counterexample :
    paginationVisible stateStalePage = true ∧
    prevButtonDisabled stateStalePage = false ∧
    (onPrevPageClick stateStalePage).currentPage = 4 ∧
    ¬((onPrevPageClick stateStalePage).currentPage ≤ stateStalePage.totalPages) := by
  refine ⟨rfl, rfl, rfl, ?_⟩
  decide

/-- Claim C2 (amended): the only page-setting controls are the previous/next
buttons; previous applies `max 1 (page - 1)` (a floor only) and next applies
`min totalPages (page + 1)` (a cap only), so whenever the current page already
lies in [1, totalPages] the page after either click stays in [1, totalPages]. -/
theorem C2_page_clamp (s : ControllerState)
    (h1 : 1 ≤ s.currentPage) (h2 : s.currentPage ≤ s.totalPages) :
    (onPrevPageClick s).currentPage = max 1 (s.currentPage - 1) ∧
    (onNextPageClick s).currentPage = min s.totalPages (s.currentPage + 1) ∧
    1 ≤ (onPrevPageClick s).currentPage ∧
    (onPrevPageClick s).currentPage ≤ s.totalPages ∧
    1 ≤ (onNextPageClick s).currentPage ∧
    (onNextPageClick s).currentPage ≤ s.totalPages := by
  refine ⟨rfl, rfl, le_max_left 1 _, ?_, ?_, min_le_left _ _⟩
  · exact max_le (h1.trans h2) ((Nat.sub_le _ _).trans h2)
  · exact le_min (h1.trans h2) (le_trans h1 (Nat.le_succ _))

/-- A state on page 2 of 5, satisfying 1 ≤ currentPage ≤ totalPages. -/
def statePage2of5 : ControllerState :=
  { initialState with currentPage := 2, totalPages := 5 }

/-- Claim C2 witness: the amended clamping property at the concrete state on
page 2 of 5, hypotheses discharged by evaluation. -/
theorem C2_page_clamp_witness :
    (onPrevPageClick statePage2of5).currentPage = max 1 (statePage2of5.currentPage - 1) ∧
    (onNextPageClick statePage2of5).currentPage =
      min statePage2of5.totalPages (statePage2of5.currentPage + 1) ∧
    1 ≤ (onPrevPageClick statePage2of5).currentPage ∧
    (onPrevPageClick statePage2of5).currentPage ≤ statePage2of5.totalPages ∧
    1 ≤ (onNextPageClick statePage2of5).currentPage ∧
    (onNextPageClick statePage2of5).currentPage ≤ statePage2of5.totalPages :=
  C2_page_clamp statePage2of5 (by decide) (by decide)

/-- Claim C3: the list request always carries `page` (the current page) and
`limit` = 10; each of `search`, `status`, `bannerType` is present exactly when
its state string is non-empty, carrying that string; an empty filter
contributes no parameter under its key at all. -/
theorem C3_query_serialization (s : ControllerState) :
    (fetchSubmissionsParams s).lookup "page" = some (toString s.currentPage) ∧
    (fetchSubmissionsParams s).lookup "limit" = some "10" ∧
    (fetchSubmissionsParams s).lookup "search" =
      (if s.search = "" then none else some s.search) ∧
    (fetchSubmissionsParams s).lookup "status" =
      (if s.filterStatus = "" then none else some s.filterStatus) ∧
    (fetchSubmissionsParams s).lookup "bannerType" =
      (if s.filterBannerType = "" then none else some s.filterBannerType) ∧
    (s.search = "" → ∀ v, ("search", v) ∉ fetchSubmissionsParams s) ∧
    (s.filterStatus = "" → ∀ v, ("status", v) ∉ fetchSubmissionsParams s) ∧
    (s.filterBannerType = "" → ∀ v, ("bannerType", v) ∉ fetchSubmissionsParams s) := by
  by_cases hs : s.search = "" <;> by_cases hf : s.filterStatus = "" <;>
    by_cases hb : s.filterBannerType = "" <;>
    simp +decide [fetchSubmissionsParams, strTruthy, hs, hf, hb, List.lookup]

/-- What a failed list fetch must leave behind: the submissions page, total
count and page count keep their prior values, and the toast stream is exactly
one destructive "Error" toast whose text is the generic message or a non-empty
server-supplied one. -/
def fetchFailurePreserves (s : ControllerState) (r : FetchResult SubmissionsPayload) : Prop :=
  (fetchSubmissionsRun s r).1.submissions = s.submissions ∧
  (fetchSubmissionsRun s r).1.total = s.total ∧
  (fetchSubmissionsRun s r).1.totalPages = s.totalPages ∧
  ∃ t, (fetchSubmissionsRun s r).2.1 = [t] ∧ t.title = "Error" ∧ t.destructive = true ∧
    (t.description = "Failed to fetch submissions" ∨
      ∃ m, r = FetchResult.apiError (some m) ∧ ¬m = "" ∧ t.description = m)

/-- Claim C4: for every prior state and either kind of list-fetch failure
(non-success body with any optional message, or a thrown network error), the
submissions page, total and page count are unchanged and exactly one
destructive failure toast is raised, generic or carrying the server message. -/
theorem C4_fetch_failure_preserves (s : ControllerState) (msg : Option String) :
    fetchFailurePreserves s (.apiError msg) ∧ fetchFailurePreserves s .networkError := by
  constructor
  · refine ⟨rfl, rfl, rfl, ?_⟩
    refine ⟨_, rfl, rfl, rfl, ?_⟩
    match msg with
    | none => exact Or.inl rfl
    | some m =>
      by_cases hm : m = ""
      · exact Or.inl (by simp [jsOrString, strTruthy, hm])
      · exact Or.inr ⟨m, rfl, hm, by simp [jsOrString, strTruthy, hm]⟩
  · exact ⟨rfl, rfl, rfl, _, rfl, rfl, rfl, Or.inl rfl⟩

/-- What a failed status change must leave behind: the submissions list (hence
every displayed status) unchanged, no refetch triggered, the PUT was the one
request issued, and exactly one destructive "Error" toast. -/
def statusChangeFailureHandled (s : ControllerState) (submissionId newStatus : String)
    (r : FetchResult Unit) : Prop :=
  (handleStatusChange s submissionId newStatus r).1.submissions = s.submissions ∧
  (handleStatusChange s submissionId newStatus r).2.refetchSubmissions = false ∧
  (handleStatusChange s submissionId newStatus r).2.refetchStatistics = false ∧
  (handleStatusChange s submissionId newStatus r).2.requests =
    [ApiRequest.updateStatus submissionId newStatus] ∧
  ∃ t, (handleStatusChange s submissionId newStatus r).2.toasts = [t] ∧
    t.title = "Error" ∧ t.destructive = true

/-- Claim C5: `handleStatusChange` never writes the new status into the local
submissions list for any outcome; on success it triggers both the list refetch
and the statistics refetch; on either kind of failure the displayed submissions
(and so every displayed status) are unchanged, no refetch happens, and exactly
one destructive error toast is raised. -/
theorem C5_status_change_confirm_first (s : ControllerState)
    (submissionId newStatus : String) (msg : Option String) :
    (∀ r, (handleStatusChange s submissionId newStatus r).1.submissions = s.submissions) ∧
    (handleStatusChange s submissionId newStatus (.success ())).2.refetchSubmissions = true ∧
    (handleStatusChange s submissionId newStatus (.success ())).2.refetchStatistics = true ∧
    statusChangeFailureHandled s submissionId newStatus (.apiError msg) ∧
    statusChangeFailureHandled s submissionId newStatus .networkError := by
  refine ⟨fun r => ?_, rfl, rfl, ?_, ?_⟩
  · cases r <;> rfl
  · exact ⟨rfl, rfl, rfl, rfl, _, rfl, rfl, rfl⟩
  · exact ⟨rfl, rfl, rfl, rfl, _, rfl, rfl, rfl⟩

/-- Claim C6: a statistics-fetch failure of either kind changes nothing of the
controller state (the held statistics included) and raises no toast — a thrown
error is only logged; and inside a combined refresh the submissions outcome of
the list fetch is identical whatever the statistics outcome was, so the
statistics failure does not block or alter the list refresh. -/
theorem C6_statistics_failure_silent (s : ControllerState) (msg : Option String)
    (rSub : FetchResult SubmissionsPayload) :
    (fetchStatisticsRun s (.apiError msg)).1 = s ∧
    (fetchStatisticsRun s (.apiError msg)).2.1 = [] ∧
    (fetchStatisticsRun s .networkError).1 = s ∧
    (fetchStatisticsRun s .networkError).2.1 = [] ∧
    (fetchStatisticsRun s .networkError).2.2 = ["Error fetching statistics:"] ∧
    (∀ rStat, (refreshRun s rSub rStat).1.submissions =
        (fetchSubmissionsRun s rSub).1.submissions ∧
      (refreshRun s rSub rStat).1.total = (fetchSubmissionsRun s rSub).1.total ∧
      (refreshRun s rSub rStat).1.totalPages = (fetchSubmissionsRun s rSub).1.totalPages) := by
  refine ⟨rfl, rfl, rfl, rfl, rfl, fun rStat => ?_⟩
  cases rSub <;> cases rStat <;> exact ⟨rfl, rfl, rfl⟩

/-- What a failed delete must leave behind: the submissions list (the row
included) unchanged, no refetch, the DELETE was issued, and exactly one
destructive "Error" toast. -/
def deleteFailureHandled (s : ControllerState) (submissionId : String)
    (r : FetchResult Unit) : Prop :=
  (handleDelete s submissionId true r).1.submissions = s.submissions ∧
  (handleDelete s submissionId true r).2.refetchSubmissions = false ∧
  (handleDelete s submissionId true r).2.refetchStatistics = false ∧
  (handleDelete s submissionId true r).2.requests =
    [ApiRequest.deleteSubmission submissionId] ∧
  ∃ t, (handleDelete s submissionId true r).2.toasts = [t] ∧
    t.title = "Error" ∧ t.destructive = true

/-- Claim C7: a declined confirmation returns before anything happens — the
state is exactly the prior state and no request, toast or refetch is produced;
a confirmed delete issues exactly the DELETE request; on success it triggers
the list and statistics refetches; on either failure it raises one destructive
error toast and the submissions list (the row included) is unchanged. -/
theorem C7_delete_confirmation_gate (s : ControllerState) (submissionId : String)
    (msg : Option String) :
    (∀ r, handleDelete s submissionId false r = (s, noEffects)) ∧
    (∀ r, (handleDelete s submissionId true r).2.requests =
      [ApiRequest.deleteSubmission submissionId]) ∧
    (handleDelete s submissionId true (.success ())).2.refetchSubmissions = true ∧
    (handleDelete s submissionId true (.success ())).2.refetchStatistics = true ∧
    deleteFailureHandled s submissionId (.apiError msg) ∧
    deleteFailureHandled s submissionId .networkError := by
  refine ⟨fun r => rfl, fun r => ?_, rfl, rfl, ?_, ?_⟩
  · cases r <;> rfl
  · exact ⟨rfl, rfl, rfl, rfl, _, rfl, rfl, rfl⟩
  · exact ⟨rfl, rfl, rfl, rfl, _, rfl, rfl, rfl⟩

/-- Claim C8: the status-select and delete controls of every row read the one
global `updating` / `deleting` flag, so the disabled state is identical across
rows; entering a status change sets `updating` (disabling every row's status
select) and its resolution clears it for every outcome, and likewise for
deletes; and each begin leaves the other flag untouched, so a status change
and a delete can be in flight at once with both flags set. -/
theorem C8_global_mutation_flags (s : ControllerState)
    (rowA rowB : AdvertisementSubmission) (submissionId newStatus : String) :
    statusSelectDisabled s rowA = s.updating ∧
    statusSelectDisabled s rowA = statusSelectDisabled s rowB ∧
    deleteButtonDisabled s rowA = s.deleting ∧
    deleteButtonDisabled s rowA = deleteButtonDisabled s rowB ∧
    (handleStatusChangeBegin s).updating = true ∧
    (∀ row, statusSelectDisabled (handleStatusChangeBegin s) row = true) ∧
    (∀ r, (handleStatusChangeComplete s submissionId newStatus r).1.updating = false) ∧
    (handleDeleteBegin s).deleting = true ∧
    (∀ row, deleteButtonDisabled (handleDeleteBegin s) row = true) ∧
    (∀ r, (handleDeleteComplete s submissionId r).1.deleting = false) ∧
    (handleStatusChangeBegin s).deleting = s.deleting ∧
    (handleDeleteBegin s).updating = s.updating ∧
    (handleDeleteBegin (handleStatusChangeBegin s)).updating = true ∧
    (handleDeleteBegin (handleStatusChangeBegin s)).deleting = true := by
  refine ⟨rfl, rfl, rfl, rfl, rfl, fun row => rfl, fun r => ?_, rfl, fun row => rfl,
    fun r => ?_, rfl, rfl, rfl, rfl⟩
  · cases r <;> rfl
  · cases r <;> rfl

/-- A state on page 2 with 23 submissions in total. -/
def statePage2Total23 : ControllerState :=
  { initialState with currentPage := 2, totalPages := 3, total := 23 }

/-- A state on page 3 with 23 submissions in total. -/
def statePage3Total23 : ControllerState :=
  { initialState with currentPage := 3, totalPages := 3, total := 23 }

/-- Claim C9: the caption's range is exactly the spec's
`offsetStart = (page-1)*pageSize+1` and `offsetEnd = min(page*pageSize, total)`
with pageSize = 10, and for total = 23 page 2 shows (11, 20) and page 3 shows
(21, 23). -/
theorem C9_display_range (s : ControllerState) :
    showingFrom s = offsetStartSpec s.currentPage ∧
    showingTo s = offsetEndSpec s.currentPage s.total ∧
    showingFrom statePage2Total23 = 11 ∧ showingTo statePage2Total23 = 20 ∧
    showingFrom statePage3Total23 = 21 ∧ showingTo statePage3Total23 = 23 :=
  ⟨rfl, rfl, by decide, by decide, by decide, by decide⟩

/-- Claim C10: submitting the banner form issues the `createSubmission` POST
exactly when none of the six starred fields is empty; with any of them empty no
request is issued, the form state is exactly the prior state, and the one toast
raised is the destructive required-fields message; the guard reads none of
`projectType` and `budget`, so emptying them never changes it; and the guard
passes precisely when all six required fields are non-empty. -/
theorem C10_required_fields_gate (st : BannerFormState) :
    (∀ r, ¬(handleSubmit st r).2.requests = [] ↔ missingRequiredField st.formData = false) ∧
    (missingRequiredField st.formData = true →
      ∀ r, (handleSubmit st r).1 = st ∧
        (handleSubmit st r).2.requests = [] ∧
        (handleSubmit st r).2.toasts =
          [{ title := "Error", description := "Please fill in all required fields",
             destructive := true }]) ∧
    (missingRequiredField st.formData = false →
      ∀ r, (handleSubmit st r).2.requests = [ApiRequest.createSubmission st.formData]) ∧
    (∀ pt b, missingRequiredField
        { st.formData with projectType := pt, budget := b } =
      missingRequiredField st.formData) ∧
    (missingRequiredField st.formData = false ↔
      (¬st.formData.fullName = "" ∧ ¬st.formData.email = "" ∧ ¬st.formData.phone = "" ∧
       ¬st.formData.projectName = "" ∧ ¬st.formData.location = "" ∧
       ¬st.formData.description = "")) := by
  have hiff : missingRequiredField st.formData = false ↔
      (¬st.formData.fullName = "" ∧ ¬st.formData.email = "" ∧ ¬st.formData.phone = "" ∧
       ¬st.formData.projectName = "" ∧ ¬st.formData.location = "" ∧
       ¬st.formData.description = "") := by
    simp [missingRequiredField, strTruthy, and_assoc]
  by_cases hm : missingRequiredField st.formData
  · refine ⟨fun r => ?_, fun _ r => ?_, fun hc => absurd hm (by simp [hc]), fun pt b => ?_,
      hiff⟩
    · cases r <;> simp [handleSubmit, hm, noEffects]
    · cases r <;> simp [handleSubmit, hm, noEffects]
    · simp [missingRequiredField]
  · rw [Bool.not_eq_true] at hm
    refine ⟨fun r => ?_, fun hc => absurd hc (by simp [hm]), fun _ r => ?_, fun pt b => ?_,
      hiff⟩
    · cases r <;> simp [handleSubmit, hm, noEffects]
    · cases r <;> simp [handleSubmit, hm, noEffects]
    · simp [missingRequiredField]

end AshishProperties
